import Mathlib

/-!
Shallow embedding of the repository-handle layer (src/repo.rs) of a safe
wrapper around a native version-control engine.

Native calls are modelled by passing their observable results (integer
status codes, out-pointers, flag words, and the content of the engine's
last-error slot) as explicit arguments.  Pointers are modelled as `Nat`
with `0` playing the role of the null pointer.  A process abort
(`fail!` or a failed `assert!` in the source) is modelled by a dedicated
`Outcome.fatal` value, distinct from both success and recoverable error.
-/

/-- Modelled from the spec: the crate-root `Error` value (not under src/)
carries the native status code and an optional descriptive message read
from the engine's last-error slot at the moment of failure. -/
structure Error where
  code : Int
  message : Option String
  deriving DecidableEq

/-- Result of an operation that can return a value, return a recoverable
error, or abort the process. -/
inductive Outcome (α : Type) where
  | ok (val : α)
  | err (e : Error)
  | fatal
  deriving DecidableEq

/-- Whether an outcome is a recoverable error returned to the caller. -/
def Outcome.isErr {α : Type} : Outcome α → Bool
  | .err _ => true
  | _ => false

/-- Modelled from the spec: the crate-root error translator `doit` (not
under src/) wraps a native call returning an integer status: `Ok(code)`
when the code is non-negative, `Err(Error)` when the code is negative,
the error being the engine's last-error slot content at the point of
failure. -/
def doit (code : Int) (lastError : Error) : Except Error Int :=
  if code < 0 then Except.error lastError else Except.ok code

/-- Marker type `std::kinds::marker::NoShare` (host standard library). -/
inductive NoShare where
  | mk
  deriving DecidableEq

/-- Marker type `std::kinds::marker::NoSend` (host standard library). -/
inductive NoSend where
  | mk
  deriving DecidableEq

/-- The repository handle (src/repo.rs lines 7-11): one native
`git_repository` pointer plus the two thread-affinity marker fields. -/
structure Repository where
  raw : Nat
  marker1 : NoShare
  marker2 : NoSend
  deriving DecidableEq

/-- Modelled from the spec: the crate-root `Object` handle (not under
src/) wraps one native object pointer plus a non-owning back-reference to
the repository handle that created it. -/
structure Object where
  raw : Nat
  repo : Nat
  deriving DecidableEq

/-- Modelled from the spec: `Object::from_raw` (not under src/)
constructs an object handle from the owning repository and a native
pointer. -/
def Object.from_raw (repo : Repository) (ptr : Nat) : Object :=
  { raw := ptr, repo := repo.raw }

/-- Modelled from the spec: the crate-root `Revspec` (not under src/) is
a pair of optional object handles, `from` and `to`. -/
structure Revspec where
  «from» : Option Object
  «to» : Option Object
  deriving DecidableEq

/-- Modelled from the spec: `Revspec::from_objects` (not under src/)
builds the pair from its two legs. -/
def Revspec.from_objects (f t : Option Object) : Revspec :=
  { «from» := f, «to» := t }

/-- Native revparse mode bit for a single-object expression (raw
bindings, not under src/; value from the native contract). -/
def GIT_REVPARSE_SINGLE : Nat := 1

/-- Native revparse mode bit for a range expression (raw bindings, not
under src/; value from the native contract). -/
def GIT_REVPARSE_RANGE : Nat := 2

/-- Bitflags containment test: all bits of `mask` are set in `flags`. -/
def git_revparse_mode_contains (flags mask : Nat) : Bool :=
  flags &&& mask == mask

/-- Observable result of one native `git_revparse` call: its return
status and the out-struct `git_revspec` it filled in (two pointers plus
the mode-flags word). -/
structure RevparseRaw where
  status : Int
  «from» : Nat
  «to» : Nat
  flags : Nat
  deriving DecidableEq

/-- `Repository::revparse` (src/repo.rs lines 52-70): translate the
native status through `doit`; on success, if the flags contain the
single-object bit, assert the second slot is null and return a
single-legged `Revspec`; any other flag outcome aborts. -/
def Repository.revparse (self : Repository) (n : RevparseRaw)
    (lastError : Error) : Outcome Revspec :=
  match doit n.status lastError with
  | .error e => .err e
  | .ok _ =>
    if git_revparse_mode_contains n.flags GIT_REVPARSE_SINGLE then
      if n.«to» = 0 then
        .ok (Revspec.from_objects (some (Object.from_raw self n.«from»)) none)
      else
        .fatal
    else
      .fatal

/-- Observable result of one native `git_revparse_single` call: its
return status and the object out-pointer it wrote. -/
structure RevparseSingleRaw where
  status : Int
  obj : Nat
  deriving DecidableEq

/-- `Repository::revparse_single` (src/repo.rs lines 73-81): translate
the native status through `doit`; on success, assert the out-pointer is
non-null and wrap it into an `Object`. -/
def Repository.revparse_single (self : Repository) (n : RevparseSingleRaw)
    (lastError : Error) : Outcome Object :=
  match doit n.status lastError with
  | .error e => .err e
  | .ok _ =>
    if n.obj = 0 then .fatal
    else .ok (Object.from_raw self n.obj)

/-- `Repository::is_empty` (src/repo.rs lines 94-99): translate the raw
code through `doit` and compare the successful code with `1`. -/
def Repository.is_empty (_self : Repository) (code : Int)
    (lastError : Error) : Except Error Bool :=
  match doit code lastError with
  | .error e => .error e
  | .ok empty => .ok (empty == 1)

/-- Native repository-state constant (raw bindings, not under src/;
values from the native contract). -/
def GIT_REPOSITORY_STATE_NONE : Int := 0

/-- Native repository-state constant. -/
def GIT_REPOSITORY_STATE_MERGE : Int := 1

/-- Native repository-state constant. -/
def GIT_REPOSITORY_STATE_REVERT : Int := 2

/-- Native repository-state constant. -/
def GIT_REPOSITORY_STATE_CHERRYPICK : Int := 3

/-- Native repository-state constant. -/
def GIT_REPOSITORY_STATE_BISECT : Int := 4

/-- Native repository-state constant. -/
def GIT_REPOSITORY_STATE_REBASE : Int := 5

/-- Native repository-state constant. -/
def GIT_REPOSITORY_STATE_REBASE_INTERACTIVE : Int := 6

/-- Native repository-state constant. -/
def GIT_REPOSITORY_STATE_REBASE_MERGE : Int := 7

/-- Native repository-state constant. -/
def GIT_REPOSITORY_STATE_APPLY_MAILBOX : Int := 8

/-- Native repository-state constant. -/
def GIT_REPOSITORY_STATE_APPLY_MAILBOX_OR_REBASE : Int := 9

/-- The closed repository-state enumeration (crate root, names as used
from src/repo.rs through `super::`). -/
inductive RepositoryState where
  | Clean
  | Merge
  | Revert
  | CherryPick
  | Bisect
  | Rebase
  | RebaseInteractive
  | RebaseMerge
  | ApplyMailbox
  | ApplyMailboxOrRebase
  deriving DecidableEq

/-- `Repository::state` (src/repo.rs lines 112-133): decode the native
integer through the if-else chain generated by the `check!` macro; an
unmatched value aborts with "unknown repository state". -/
def Repository.state (_self : Repository) (state : Int) :
    Outcome RepositoryState :=
  if state = GIT_REPOSITORY_STATE_NONE then .ok .Clean
  else if state = GIT_REPOSITORY_STATE_MERGE then .ok .Merge
  else if state = GIT_REPOSITORY_STATE_REVERT then .ok .Revert
  else if state = GIT_REPOSITORY_STATE_CHERRYPICK then .ok .CherryPick
  else if state = GIT_REPOSITORY_STATE_BISECT then .ok .Bisect
  else if state = GIT_REPOSITORY_STATE_REBASE then .ok .Rebase
  else if state = GIT_REPOSITORY_STATE_REBASE_INTERACTIVE then .ok .RebaseInteractive
  else if state = GIT_REPOSITORY_STATE_REBASE_MERGE then .ok .RebaseMerge
  else if state = GIT_REPOSITORY_STATE_APPLY_MAILBOX then .ok .ApplyMailbox
  else if state = GIT_REPOSITORY_STATE_APPLY_MAILBOX_OR_REBASE then .ok .ApplyMailboxOrRebase
  else .fatal

/-- Observable result of one native `git_repository_workdir` call: the
returned pointer and the null-terminated bytes readable at it (relevant
only when the pointer is non-null). -/
structure WorkdirRaw where
  ptr : Nat
  bytes : List Nat
  deriving DecidableEq

/-- `Repository::workdir` (src/repo.rs lines 138-147): `none` when the
native pointer is null, otherwise the path built from the native bytes.
The return type has no error alternative. -/
def Repository.workdir (_self : Repository) (n : WorkdirRaw) :
    Option (List Nat) :=
  if n.ptr = 0 then none else some n.bytes

/-- One step performed by `open`/`init`, in program order. -/
inductive Step where
  | initGuard
  | marshalPath
  | nativeCall
  deriving DecidableEq

/-- Observable result of one native `git_repository_open` or
`git_repository_init` call: its return status and the repository
out-pointer it wrote. -/
structure OpenRaw where
  status : Int
  ptr : Nat
  deriving DecidableEq

/-- `Repository::open` (src/repo.rs lines 17-29): run the initialization
guard, marshal the path, invoke the native open, translate the status
through `doit`, and on success wrap the out-pointer into an owning
handle.  The step trace records the program order of the three
effects. -/
def Repository.«open» (n : OpenRaw) (lastError : Error) :
    List Step × Outcome Repository :=
  ([Step.initGuard, Step.marshalPath, Step.nativeCall],
   match doit n.status lastError with
   | .error e => .err e
   | .ok _ => .ok { raw := n.ptr, marker1 := NoShare.mk, marker2 := NoSend.mk })

/-- `Repository::init` (src/repo.rs lines 34-46): identical protocol to
`open`, with the bare flag passed to the native init call. -/
def Repository.init (_bare : Bool) (n : OpenRaw) (lastError : Error) :
    List Step × Outcome Repository :=
  ([Step.initGuard, Step.marshalPath, Step.nativeCall],
   match doit n.status lastError with
   | .error e => .err e
   | .ok _ => .ok { raw := n.ptr, marker1 := NoShare.mk, marker2 := NoSend.mk })

/-- A native call relevant to resource release. -/
inductive NativeCall where
  | free (ptr : Nat)
  deriving DecidableEq

/-- `impl Drop for Repository` (src/repo.rs lines 150-155): the
destructor body performs exactly one native free of the stored
pointer. -/
def Repository.drop (self : Repository) : List NativeCall :=
  [NativeCall.free self.raw]

/-- One open-then-scope-exit cycle: run `open`; when and only when a
handle was constructed, its destructor runs once at scope exit.  The
result lists the release calls the cycle performs. -/
def openDropCycle (n : OpenRaw) (lastError : Error) : List NativeCall :=
  match (Repository.«open» n lastError).2 with
  | .ok repo => repo.drop
  | _ => []

/-- Field types of the `Repository` struct, for the host language's
auto-trait derivation: a raw pointer and the two marker fields. -/
inductive FieldTy where
  | rawPtr
  | markerNoShare
  | markerNoSend
  deriving DecidableEq

/-- The field list of `Repository` as declared in src/repo.rs lines
7-11. -/
def Repository.fieldTypes : List FieldTy :=
  [FieldTy.rawPtr, FieldTy.markerNoShare, FieldTy.markerNoSend]

/-- Whether one field type may be transferred to another thread under the
host language's rules: the `NoSend` marker and the raw pointer are not
transferable; `NoShare` places no transfer restriction of its own. -/
def FieldTy.isSend : FieldTy → Bool
  | .rawPtr => false
  | .markerNoShare => true
  | .markerNoSend => false

/-- Whether one field type may be shared between threads under the host
language's rules: the `NoShare` marker and the raw pointer are not
shareable; `NoSend` places no sharing restriction of its own. -/
def FieldTy.isShare : FieldTy → Bool
  | .rawPtr => false
  | .markerNoShare => false
  | .markerNoSend => true

/-- A struct is transferable across threads iff every field is; this is
the host language's auto-trait rule. -/
def structIsSend (fields : List FieldTy) : Bool :=
  fields.all FieldTy.isSend

/-- A struct is shareable across threads iff every field is; this is the
host language's auto-trait rule. -/
def structIsShare (fields : List FieldTy) : Bool :=
  fields.all FieldTy.isShare

/-- A fixed repository handle used for concrete evaluations. -/
def repo0 : Repository :=
  { raw := 1, marker1 := NoShare.mk, marker2 := NoSend.mk }

/-- A fixed last-error slot content used for concrete evaluations. -/
def err0 : Error :=
  { code := -1, message := none }

/-- C1 counterexample: with a successful native status and a flag word
that indicates neither single nor range, `revparse` aborts and returns no
error value of any kind to the caller, contrary to the claim that it
returns an `UnsupportedRevspec` error rather than aborting. -/
theorem revparse_unrecognized_flags_returns_no_error :
    Repository.revparse repo0
      { status := 0, «from» := 1, «to» := 0, flags := 0 } err0
      = Outcome.fatal ∧
    (Repository.revparse repo0
      { status := 0, «from» := 1, «to» := 0, flags := 0 } err0).isErr
      = false := by
  exact ⟨rfl, rfl⟩

/-- C1 (amended): when the native revparse call succeeds but the returned
flags do not contain the single-object bit — in particular when they
indicate neither single nor range in a recognized way — `revparse` aborts
with a fatal internal error rather than returning an error value or
guessing a classification. -/
theorem revparse_unrecognized_flags_aborts
    (self : Repository) (n : RevparseRaw) (e : Error)
    (hs : 0 ≤ n.status)
    (hf : git_revparse_mode_contains n.flags GIT_REVPARSE_SINGLE = false) :
    Repository.revparse self n e = Outcome.fatal := by
  unfold Repository.revparse doit
  rw [if_neg (by omega)]
  simp [hf]

/-- C1 witness: a concrete successful call whose flags carry only the
range bit aborts. -/
theorem revparse_unrecognized_flags_aborts_witness :
    Repository.revparse repo0
      { status := 0, «from» := 1, «to» := 0, flags := 2 } err0
      = Outcome.fatal :=
  revparse_unrecognized_flags_aborts repo0
    { status := 0, «from» := 1, «to» := 0, flags := 2 } err0
    (by decide) (by decide)

/-- C2: when the native revparse call succeeds with flags containing the
single-object bit, a null second slot yields a `Revspec` whose `to` leg
is absent, and a populated second slot makes the operation abort (failed
assertion) instead of returning any value. -/
theorem revparse_single_flags_to_absent
    (self : Repository) (n : RevparseRaw) (e : Error)
    (hs : 0 ≤ n.status)
    (hf : git_revparse_mode_contains n.flags GIT_REVPARSE_SINGLE = true) :
    (n.«to» = 0 →
      Repository.revparse self n e =
        Outcome.ok
          (Revspec.from_objects (some (Object.from_raw self n.«from»)) none)) ∧
    (n.«to» ≠ 0 → Repository.revparse self n e = Outcome.fatal) := by
  unfold Repository.revparse doit
  rw [if_neg (by omega)]
  constructor
  · intro h
    simp [hf, h]
  · intro h
    simp [hf, h]

/-- C2 witness: a concrete successful single-flagged call with a null
second slot returns the one-legged `Revspec`. -/
theorem revparse_single_flags_to_absent_witness :
    Repository.revparse repo0
      { status := 0, «from» := 7, «to» := 0, flags := 1 } err0
      = Outcome.ok
          (Revspec.from_objects (some (Object.from_raw repo0 7)) none) :=
  (revparse_single_flags_to_absent repo0
    { status := 0, «from» := 7, «to» := 0, flags := 1 } err0
    (by decide) (by decide)).1 (by decide)

/-- C3: when the native call behind `revparse_single` reports a
non-negative status, a null object out-pointer makes the operation abort
(failed assertion) instead of being returned as a silent empty result,
and a non-null out-pointer is wrapped and returned to the caller. -/
theorem revparse_single_nonnull_assertion
    (self : Repository) (n : RevparseSingleRaw) (e : Error)
    (hs : 0 ≤ n.status) :
    (n.obj = 0 → Repository.revparse_single self n e = Outcome.fatal) ∧
    (n.obj ≠ 0 →
      Repository.revparse_single self n e =
        Outcome.ok (Object.from_raw self n.obj)) := by
  unfold Repository.revparse_single doit
  rw [if_neg (by omega)]
  constructor
  · intro h
    simp [h]
  · intro h
    simp [h]

/-- C3 witness: a concrete successful call that wrote a null out-pointer
aborts. -/
theorem revparse_single_nonnull_assertion_witness :
    Repository.revparse_single repo0 { status := 0, obj := 0 } err0
      = Outcome.fatal :=
  (revparse_single_nonnull_assertion repo0 { status := 0, obj := 0 } err0
    (by decide)).1 (by decide)

/-- C10: whenever `revparse` returns a value, that `Revspec` has `from`
populated and `to` absent — the layer never constructs a two-legged range
`Revspec` — and every successful native outcome whose flags lack the
single-object bit aborts instead of producing a value. -/
theorem revparse_ok_always_single
    (self : Repository) (n : RevparseRaw) (e : Error) :
    (∀ rs : Revspec, Repository.revparse self n e = Outcome.ok rs →
      rs.«from» = some (Object.from_raw self n.«from») ∧ rs.«to» = none) ∧
    (0 ≤ n.status →
      git_revparse_mode_contains n.flags GIT_REVPARSE_SINGLE = false →
      Repository.revparse self n e = Outcome.fatal) := by
  constructor
  · intro rs h
    unfold Repository.revparse doit at h
    by_cases hs : n.status < 0
    · rw [if_pos hs] at h
      simp at h
    · rw [if_neg hs] at h
      by_cases hf : git_revparse_mode_contains n.flags GIT_REVPARSE_SINGLE
      · by_cases ht : n.«to» = 0
        · simp [hf, ht] at h
          rw [← h]
          exact ⟨rfl, rfl⟩
        · simp [hf, ht] at h
      · simp [hf] at h
  · intro hs hf
    unfold Repository.revparse doit
    rw [if_neg (by omega)]
    simp [hf]

/-- C10 witness: on a concrete successful single-flagged call, the
returned `Revspec` has `from` populated and `to` absent. -/
theorem revparse_ok_always_single_witness :
    (Revspec.from_objects (some (Object.from_raw repo0 9)) none).«from»
      = some (Object.from_raw repo0 9) ∧
    (Revspec.from_objects (some (Object.from_raw repo0 9)) none).«to»
      = none :=
  (revparse_ok_always_single repo0
    { status := 0, «from» := 9, «to» := 0, flags := 1 } err0).1
    (Revspec.from_objects (some (Object.from_raw repo0 9)) none) (by decide)

/-- C4: `state` maps each of the ten recognized native integers onto its
variant of the closed enumeration, and every integer matching none of the
ten recognized constants makes it abort with a fatal internal error
rather than map to any default variant. -/
theorem state_closed_enumeration
    (self : Repository) (n : Int)
    (h : n ≠ GIT_REPOSITORY_STATE_NONE ∧
         n ≠ GIT_REPOSITORY_STATE_MERGE ∧
         n ≠ GIT_REPOSITORY_STATE_REVERT ∧
         n ≠ GIT_REPOSITORY_STATE_CHERRYPICK ∧
         n ≠ GIT_REPOSITORY_STATE_BISECT ∧
         n ≠ GIT_REPOSITORY_STATE_REBASE ∧
         n ≠ GIT_REPOSITORY_STATE_REBASE_INTERACTIVE ∧
         n ≠ GIT_REPOSITORY_STATE_REBASE_MERGE ∧
         n ≠ GIT_REPOSITORY_STATE_APPLY_MAILBOX ∧
         n ≠ GIT_REPOSITORY_STATE_APPLY_MAILBOX_OR_REBASE) :
    Repository.state self n = Outcome.fatal ∧
    Repository.state self GIT_REPOSITORY_STATE_NONE
      = Outcome.ok RepositoryState.Clean ∧
    Repository.state self GIT_REPOSITORY_STATE_MERGE
      = Outcome.ok RepositoryState.Merge ∧
    Repository.state self GIT_REPOSITORY_STATE_REVERT
      = Outcome.ok RepositoryState.Revert ∧
    Repository.state self GIT_REPOSITORY_STATE_CHERRYPICK
      = Outcome.ok RepositoryState.CherryPick ∧
    Repository.state self GIT_REPOSITORY_STATE_BISECT
      = Outcome.ok RepositoryState.Bisect ∧
    Repository.state self GIT_REPOSITORY_STATE_REBASE
      = Outcome.ok RepositoryState.Rebase ∧
    Repository.state self GIT_REPOSITORY_STATE_REBASE_INTERACTIVE
      = Outcome.ok RepositoryState.RebaseInteractive ∧
    Repository.state self GIT_REPOSITORY_STATE_REBASE_MERGE
      = Outcome.ok RepositoryState.RebaseMerge ∧
    Repository.state self GIT_REPOSITORY_STATE_APPLY_MAILBOX
      = Outcome.ok RepositoryState.ApplyMailbox ∧
    Repository.state self GIT_REPOSITORY_STATE_APPLY_MAILBOX_OR_REBASE
      = Outcome.ok RepositoryState.ApplyMailboxOrRebase := by
  obtain ⟨h0, h1, h2, h3, h4, h5, h6, h7, h8, h9⟩ := h
  refine ⟨?_, rfl, rfl, rfl, rfl, rfl, rfl, rfl, rfl, rfl, rfl⟩
  simp [Repository.state, h0, h1, h2, h3, h4, h5, h6, h7, h8, h9]

/-- C4 witness: the concrete unrecognized integer `42` makes `state`
abort, while `0` decodes to `Clean`. -/
theorem state_closed_enumeration_witness :
    Repository.state repo0 42 = Outcome.fatal :=
  (state_closed_enumeration repo0 42 (by decide)).1

/-- C5: `workdir` returns `none` exactly when the native pointer is null
(the bare-repository case) and the path built from the native bytes
otherwise; its return type carries no error alternative. -/
theorem workdir_none_iff_null
    (self : Repository) (n : WorkdirRaw) :
    (Repository.workdir self n = none ↔ n.ptr = 0) ∧
    (n.ptr ≠ 0 → Repository.workdir self n = some n.bytes) := by
  unfold Repository.workdir
  by_cases h : n.ptr = 0 <;> simp [h]

/-- C5 witness: a concrete null pointer gives `none` and a concrete
non-null pointer gives the bytes read at it. -/
theorem workdir_none_iff_null_witness :
    Repository.workdir repo0 { ptr := 0, bytes := [] } = none ∧
    Repository.workdir repo0 { ptr := 3, bytes := [47, 116] }
      = some [47, 116] :=
  ⟨(workdir_none_iff_null repo0 { ptr := 0, bytes := [] }).1.mpr rfl,
   (workdir_none_iff_null repo0 { ptr := 3, bytes := [47, 116] }).2
     (by decide)⟩

/-- C6: `is_empty` routes the native code through the error translator:
a negative code yields the last-error value, a non-negative code yields a
success whose boolean is true exactly when the code equals `1`. -/
theorem is_empty_error_translation
    (self : Repository) (c : Int) (e : Error) :
    (c < 0 → Repository.is_empty self c e = Except.error e) ∧
    (0 ≤ c → Repository.is_empty self c e = Except.ok (c == 1)) ∧
    (0 ≤ c → (Repository.is_empty self c e = Except.ok true ↔ c = 1)) := by
  unfold Repository.is_empty doit
  refine ⟨fun h => by rw [if_pos h], fun h => by rw [if_neg (by omega)],
    fun h => ?_⟩
  rw [if_neg (by omega)]
  simp

/-- C6 witness: the concrete code `1` yields `Ok true`, the code `0`
yields `Ok false`, and the code `-3` yields the last-error value. -/
theorem is_empty_error_translation_witness :
    Repository.is_empty repo0 1 err0 = Except.ok true ∧
    Repository.is_empty repo0 0 err0 = Except.ok false ∧
    Repository.is_empty repo0 (-3) err0 = Except.error err0 :=
  ⟨(is_empty_error_translation repo0 1 err0).2.1 (by decide),
   (is_empty_error_translation repo0 0 err0).2.1 (by decide),
   (is_empty_error_translation repo0 (-3) err0).1 (by decide)⟩

/-- C7: `open` and `init` both perform, in order, the initialization
guard, the path marshaling, and the native call; a negative native status
yields the native-reported error and never an abort; a non-negative
status yields an owning handle wrapping the out-pointer. -/
theorem open_init_protocol
    (n : OpenRaw) (bare : Bool) (e : Error) :
    (Repository.«open» n e).1
      = [Step.initGuard, Step.marshalPath, Step.nativeCall] ∧
    (n.status < 0 → (Repository.«open» n e).2 = Outcome.err e) ∧
    (0 ≤ n.status → (Repository.«open» n e).2 =
      Outcome.ok
        { raw := n.ptr, marker1 := NoShare.mk, marker2 := NoSend.mk }) ∧
    (Repository.«open» n e).2 ≠ Outcome.fatal ∧
    (Repository.init bare n e).1
      = [Step.initGuard, Step.marshalPath, Step.nativeCall] ∧
    (n.status < 0 → (Repository.init bare n e).2 = Outcome.err e) ∧
    (0 ≤ n.status → (Repository.init bare n e).2 =
      Outcome.ok
        { raw := n.ptr, marker1 := NoShare.mk, marker2 := NoSend.mk }) ∧
    (Repository.init bare n e).2 ≠ Outcome.fatal := by
  by_cases h : n.status < 0
  · simp [Repository.«open», Repository.init, doit, h]
  · simp [Repository.«open», Repository.init, doit, h]

/-- C7 witness: a concrete failing status returns the native-reported
error from `open`. -/
theorem open_init_protocol_witness :
    (Repository.«open» { status := -1, ptr := 0 } err0).2
      = Outcome.err err0 :=
  (open_init_protocol { status := -1, ptr := 0 } false err0).2.1 (by decide)

/-- C8: across one open-then-scope-exit cycle, the native free of the
out-pointer runs exactly once when construction succeeded and never when
construction failed, and the destructor body of any handle performs
exactly one free of its stored pointer. -/
theorem drop_frees_exactly_once
    (n : OpenRaw) (e : Error) :
    (List.count (NativeCall.free n.ptr) (openDropCycle n e)
      = if 0 ≤ n.status then 1 else 0) ∧
    (n.status < 0 → openDropCycle n e = []) ∧
    (∀ self : Repository, Repository.drop self = [NativeCall.free self.raw]) := by
  refine ⟨?_, ?_, fun self => rfl⟩
  · by_cases h : n.status < 0
    · rw [if_neg (by omega)]
      simp [openDropCycle, Repository.«open», doit, h]
    · rw [if_pos (by omega)]
      simp [openDropCycle, Repository.«open», Repository.drop, doit, h]
  · intro h
    simp [openDropCycle, Repository.«open», doit, h]

/-- C8 witness: a concrete failed construction performs no free at all,
and a concrete successful cycle frees its pointer exactly once. -/
theorem drop_frees_exactly_once_witness :
    openDropCycle { status := -2, ptr := 5 } err0 = [] ∧
    List.count (NativeCall.free 5)
      (openDropCycle { status := 0, ptr := 5 } err0) = 1 :=
  ⟨(drop_frees_exactly_once { status := -2, ptr := 5 } err0).2.1 (by decide),
   by
     rw [(drop_frees_exactly_once { status := 0, ptr := 5 } err0).1]
     decide⟩

/-- C9: under the host language's auto-trait rule applied to the declared
field list of `Repository`, the handle type is neither transferable to
another thread nor shareable between threads, because it carries the
`NoSend` and `NoShare` marker fields; the restriction is thus a property
of the type itself, checked at build time. -/
theorem repository_not_send_not_share :
    structIsSend Repository.fieldTypes = false ∧
    structIsShare Repository.fieldTypes = false ∧
    FieldTy.markerNoSend ∈ Repository.fieldTypes ∧
    FieldTy.markerNoShare ∈ Repository.fieldTypes := by
  decide
